import Mathlib

/-!
# Verification of the d1-rest request-to-SQL translation layer

Shallow embedding of the TypeScript source in `src/rest.ts` and
`src/index.ts`: the identifier sanitizer, the per-verb CRUD query
builders, the raw-query gateway, the authentication middleware and the
fixed-window rate limiter. Each definition mirrors one source function;
source locations are given in the doc comments.
-/

/-! ## JavaScript value model -/

/-- A JavaScript value as it appears in request bodies and bound
parameter lists: strings, numbers, `NaN`, `null`, booleans, and
`undefined` (the result of a missing property lookup). -/
inductive JsVal where
  | vStr (s : String)
  | vNum (n : Int)
  | vNaN
  | vNull
  | vBool (b : Bool)
  | vUndef
deriving DecidableEq, Repr

/-- A parsed JSON request body as the handlers see it: an object
(ordered field list), an array, a bare primitive, or JSON `null`.
JavaScript objects have distinct keys; field lists coming from
`JSON.parse` satisfy `(fields.map Prod.fst).Nodup`. -/
inductive JsonData where
  | obj (fields : List (String × JsVal))
  | arr (items : List JsVal)
  | prim (v : JsVal)
  | jnull
deriving DecidableEq, Repr

deriving instance DecidableEq for Except

/-- Property lookup `data[k]` on a JavaScript object: the value of the
first field named `k`, or `undefined` when no such field exists. -/
def objLookup (fields : List (String × JsVal)) (k : String) : JsVal :=
  match fields.find? (fun p => p.1 = k) with
  | some p => p.2
  | none => JsVal.vUndef

/-! ## Character helpers (ASCII, as used by the source regexes) -/

/-- Membership in the character class `[A-Za-z0-9_]` (JavaScript `\w`,
and the class kept by the sanitizer's `replace`). -/
def isIdentChar (c : Char) : Bool :=
  (('a' ≤ c) && (c ≤ 'z')) || (('A' ≤ c) && (c ≤ 'Z')) ||
  (('0' ≤ c) && (c ≤ '9')) || (c = '_')

/-- ASCII decimal digit, the class `\d` of the sanitizer's leading-digit
test. -/
def isDigitChar (c : Char) : Bool :=
  ('0' ≤ c) && (c ≤ '9')

/-- Whitespace as recognized by JavaScript `\s` and `String.trim`
(restricted to the ASCII whitespace characters that can occur here). -/
def isSpaceChar (c : Char) : Bool :=
  (c = ' ') || (c = '\t') || (c = '\n') || (c = '\r') ||
  (c = '\x0b') || (c = '\x0c')

/-- Per-character lowercasing of a string (`String.prototype.toLowerCase`
on ASCII input). -/
def lowerStr (s : String) : String :=
  String.mk (s.data.map Char.toLower)

/-- Per-character uppercasing of a string (`String.prototype.toUpperCase`
on ASCII input). -/
def upperStr (s : String) : String :=
  String.mk (s.data.map Char.toUpper)

/-- `String.prototype.trim`: drop whitespace from both ends. -/
def jsTrim (s : String) : String :=
  String.mk (((s.data.dropWhile isSpaceChar).reverse.dropWhile isSpaceChar).reverse)

/-! ## Identifier sanitizer — `src/rest.ts` lines 8–17 -/

/-- The `replace(/[^a-zA-Z0-9_]/g, '')` step of `sanitizeIdentifier`:
strip every character outside `[A-Za-z0-9_]`. -/
def stripIdent (s : String) : String :=
  String.mk (s.data.filter isIdentChar)

/-- Does the stripped result start with a digit (`/^\d/.test(sanitized)`)? -/
def startsWithDigit (s : String) : Bool :=
  match s.data with
  | [] => false
  | c :: _ => isDigitChar c

/-- `sanitizeIdentifier` (`src/rest.ts` lines 8–17): reject an empty
input (`!identifier` is truthy for `""`), strip every character outside
`[A-Za-z0-9_]`, reject an empty stripped result or one starting with a
digit, otherwise return the stripped string. Errors are thrown in the
source and modelled as `Except.error` with the thrown message. -/
def sanitizeIdentifier (identifier : String) : Except String String :=
  if identifier = "" then
    Except.error "Invalid identifier"
  else
    if (stripIdent identifier).length = 0 || startsWithDigit (stripIdent identifier) then
      Except.error "Invalid identifier: must start with letter or underscore"
    else
      Except.ok (stripIdent identifier)

/-- `sanitizeKeyword` (`src/rest.ts` lines 22–25): sanitize, then wrap
in backticks for use as a table name. -/
def sanitizeKeyword (identifier : String) : Except String String :=
  match sanitizeIdentifier identifier with
  | Except.error e => Except.error e
  | Except.ok s => Except.ok ("`" ++ s ++ "`")

/-- A string is a sanitizer output exactly when it is a fixed point of
the sanitizer; this is the form in which the emitted-SQL invariant is
stated. -/
def SanitizedIdent (s : String) : Prop :=
  sanitizeIdentifier s = Except.ok s

instance (s : String) : Decidable (SanitizedIdent s) := by
  unfold SanitizedIdent
  infer_instance

/-! ### Sanitizer lemmas -/

theorem stripIdent_idem (s : String) : stripIdent (stripIdent s) = stripIdent s := by
  unfold stripIdent
  simp [List.filter_filter]

theorem stripIdent_data (s : String) : (stripIdent s).data = s.data.filter isIdentChar := by
  unfold stripIdent
  rfl

/-- Every successful output of the sanitizer is itself a fixed point of
the sanitizer (sanitizing is idempotent). -/
theorem sanitize_output_fixed {raw s : String}
    (h : sanitizeIdentifier raw = Except.ok s) : SanitizedIdent s := by
  unfold sanitizeIdentifier at h
  split at h
  · exact absurd h (by simp)
  · rename_i hne
    split at h
    · exact absurd h (by simp)
    · rename_i hcond
      have hs : stripIdent raw = s := by
        simpa using h
      subst hs
      unfold SanitizedIdent sanitizeIdentifier
      have hlen : ¬ (stripIdent raw).length = 0 := by
        intro h0
        exact hcond (by simp [h0])
      have hempty : ¬ stripIdent raw = "" := by
        intro h0
        exact hlen (by simp [h0])
      rw [if_neg hempty]
      have hstrip := stripIdent_idem raw
      rw [hstrip]
      rw [if_neg hcond]

/-- Every successful output of `sanitizeKeyword` is a backtick-wrapped
sanitizer fixed point. -/
theorem sanitizeKeyword_shape {raw t : String}
    (h : sanitizeKeyword raw = Except.ok t) :
    ∃ tbl : String, SanitizedIdent tbl ∧ t = "`" ++ tbl ++ "`" := by
  unfold sanitizeKeyword at h
  split at h
  · exact absurd h (by simp)
  · rename_i s hs
    refine ⟨s, sanitize_output_fixed hs, ?_⟩
    simpa using h.symm

/-! ## CRUD query builders — `src/rest.ts` lines 30–203

Each handler is modelled as a function from the parsed request to
either an error response `(status, message)` or the parameterized SQL
statement handed to the database collaborator (plus, where relevant,
the success status). Only the `Except.ok` results reach the
collaborator; every `Except.error` is produced before any database
call. -/

/-- A parameterized SQL statement: the query text and the positional
bound-parameter list passed to `DB.prepare(query).bind(...params)`. -/
structure DbQuery where
  sql : String
  params : List JsVal
deriving DecidableEq, Repr

/-- The reserved query-string keys skipped by the GET filter loop
(`src/rest.ts` line 46). -/
def reservedKeys : List String := ["sort_by", "order", "limit", "offset"]

/-- `URLSearchParams.get(k)`: the first value for key `k`, or null
(modelled as `none`) when absent. -/
def lookupParam (sp : List (String × String)) (k : String) : Option String :=
  match sp.find? (fun p => p.1 = k) with
  | some p => some p.2
  | none => none

/-- Truthiness of a `string | null` JavaScript value: non-null and
non-empty. -/
def strTruthy (o : Option String) : Bool :=
  match o with
  | none => false
  | some s => s ≠ ""

/-- Leading decimal digits of a character list, as consumed by
`parseInt`. -/
def takeDigits (l : List Char) : List Char :=
  l.takeWhile isDigitChar

/-- Numeric value of a digit list (most significant first). -/
def digitsToNat (l : List Char) : Nat :=
  l.foldl (fun acc c => acc * 10 + (c.toNat - 48)) 0

/-- JavaScript `parseInt(s)` (radix 10 inputs): skip leading whitespace,
accept an optional sign, then read leading decimal digits; `NaN` when no
digit follows. -/
def jsParseInt (s : String) : JsVal :=
  match s.data.dropWhile isSpaceChar with
  | '-' :: rest =>
      if takeDigits rest = [] then JsVal.vNaN
      else JsVal.vNum (-(digitsToNat (takeDigits rest) : Int))
  | '+' :: rest =>
      if takeDigits rest = [] then JsVal.vNaN
      else JsVal.vNum (digitsToNat (takeDigits rest) : Int)
  | l =>
      if takeDigits l = [] then JsVal.vNaN
      else JsVal.vNum (digitsToNat (takeDigits l) : Int)

/-- The GET filter loop (`src/rest.ts` lines 45–51): for each
query-string entry whose key is not reserved, sanitize the key, push
the condition `<key> = ?` and push the value as a bound parameter. The
first sanitizer failure aborts the handler (caught as a 400). -/
def collectConditions : List (String × String) → Except String (List String × List JsVal)
  | [] => Except.ok ([], [])
  | (k, v) :: rest =>
    if reservedKeys.contains k then collectConditions rest
    else
      match sanitizeIdentifier k with
      | Except.error e => Except.error e
      | Except.ok sk =>
        match collectConditions rest with
        | Except.error e => Except.error e
        | Except.ok (cs, ps) => Except.ok ((sk ++ " = ?") :: cs, JsVal.vStr v :: ps)

/-- The GET sort direction (`src/rest.ts` line 60):
`searchParams.get('order')?.toUpperCase() === 'DESC' ? 'DESC' : 'ASC'`. -/
def orderDir (sp : List (String × String)) : String :=
  if (lookupParam sp "order").map upperStr = some "DESC" then "DESC" else "ASC"

/-- The GET sorting step (`src/rest.ts` lines 58–62): when `sort_by` is
present and truthy, append `ORDER BY <sanitized column> <dir>`. -/
def sortSegment (sp : List (String × String)) : Except String String :=
  if strTruthy (lookupParam sp "sort_by") then
    match sanitizeIdentifier ((lookupParam sp "sort_by").getD "") with
    | Except.error e => Except.error e
    | Except.ok sc => Except.ok (" ORDER BY " ++ sc ++ " " ++ orderDir sp)
  else Except.ok ""

/-- The GET pagination step (`src/rest.ts` lines 65–75): when `limit`
is truthy append `LIMIT ?` binding `parseInt(limit)`, and then when
`offset` is truthy append `OFFSET ?` binding `parseInt(offset)`. -/
def pageSegment (sp : List (String × String)) : String × List JsVal :=
  if strTruthy (lookupParam sp "limit") then
    if strTruthy (lookupParam sp "offset") then
      (" LIMIT ? OFFSET ?",
        [jsParseInt ((lookupParam sp "limit").getD ""),
         jsParseInt ((lookupParam sp "offset").getD "")])
    else
      (" LIMIT ?", [jsParseInt ((lookupParam sp "limit").getD "")])
  else ("", [])

/-- The `id = ?` condition contributed by a path-embedded id
(`src/rest.ts` lines 39–42). -/
def idConds (id : Option String) : List String :=
  match id with
  | some _ => ["id = ?"]
  | none => []

/-- The bound parameter contributed by a path-embedded id
(`src/rest.ts` line 40). -/
def idParams (id : Option String) : List JsVal :=
  match id with
  | some i => [JsVal.vStr i]
  | none => []

/-- The `WHERE` clause appended when any condition exists
(`src/rest.ts` lines 54–56). -/
def whereClause (conditions : List String) : String :=
  if conditions.length > 0 then
    " WHERE " ++ String.intercalate " AND " conditions
  else ""

/-- `handleGet` (`src/rest.ts` lines 30–90): build
`SELECT * FROM <table>` with an optional `id = ?` condition, one
equality condition per non-reserved query-string entry, an optional
`ORDER BY`, and optional `LIMIT`/`OFFSET`. Sanitizer failures are
caught and returned as status 400. -/
def handleGet (tableName : String) (id : Option String)
    (sp : List (String × String)) : Except (Nat × String) DbQuery :=
  match sanitizeKeyword tableName with
  | Except.error e => Except.error (400, e)
  | Except.ok table =>
    match collectConditions sp with
    | Except.error e => Except.error (400, e)
    | Except.ok (cs, ps) =>
      match sortSegment sp with
      | Except.error e => Except.error (400, e)
      | Except.ok sortPart =>
        Except.ok
          ⟨"SELECT * FROM " ++ table ++ whereClause (idConds id ++ cs) ++
             sortPart ++ (pageSegment sp).1,
           (idParams id ++ ps) ++ (pageSegment sp).2⟩

/-- Sanitize a list of column names in order, aborting at the first
failure (`Object.keys(data).map(sanitizeIdentifier)`). -/
def mapSanitize : List String → Except String (List String)
  | [] => Except.ok []
  | k :: rest =>
    match sanitizeIdentifier k with
    | Except.error e => Except.error e
    | Except.ok sk =>
      match mapSanitize rest with
      | Except.error e => Except.error e
      | Except.ok sks => Except.ok (sk :: sks)

/-- `handlePost` (`src/rest.ts` lines 95–128): require a non-array
object body with at least one key; sanitize each key into a column;
emit `INSERT INTO <table> (<cols>) VALUES (<placeholders>)`. The bound
parameters are `columns.map(col => data[col])` — each value is looked
up under the *sanitized* column name. Success responds with HTTP 201. -/
def handlePost (tableName : String) (data : JsonData) :
    Except (Nat × String) (DbQuery × Nat) :=
  match sanitizeKeyword tableName with
  | Except.error e => Except.error (400, e)
  | Except.ok table =>
    match data with
    | JsonData.obj fields =>
      if fields.length = 0 then Except.error (400, "No data provided")
      else
        match mapSanitize (fields.map Prod.fst) with
        | Except.error e => Except.error (400, e)
        | Except.ok columns =>
          Except.ok
            (⟨"INSERT INTO " ++ table ++ " (" ++ String.intercalate ", " columns ++
                ") VALUES (" ++ String.intercalate ", " (columns.map (fun _ => "?")) ++ ")",
              columns.map (fun col => objLookup fields col)⟩, 201)
    | _ => Except.error (400, "Invalid data format: Expected object")

/-- `handleUpdate` (`src/rest.ts` lines 133–174): require a non-array
object body that is non-empty and has no `id` key; emit
`UPDATE <table> SET <col> = ?, ... WHERE id = ?` binding
`Object.values(data)` in key order followed by the path id. -/
def handleUpdate (tableName : String) (id : String) (data : JsonData) :
    Except (Nat × String) DbQuery :=
  match sanitizeKeyword tableName with
  | Except.error e => Except.error (400, e)
  | Except.ok table =>
    match data with
    | JsonData.obj fields =>
      if fields.length = 0 then Except.error (400, "No data provided for update")
      else if (fields.map Prod.fst).contains "id" then
        Except.error (400, "Cannot update ID field")
      else
        match mapSanitize (fields.map Prod.fst) with
        | Except.error e => Except.error (400, e)
        | Except.ok columns =>
          Except.ok
            ⟨"UPDATE " ++ table ++ " SET " ++
                String.intercalate ", " (columns.map (fun col => col ++ " = ?")) ++
                " WHERE id = ?",
              fields.map Prod.snd ++ [JsVal.vStr id]⟩
    | _ => Except.error (400, "Invalid data format: Expected object")

/-- `handleDelete` (`src/rest.ts` lines 179–203): emit
`DELETE FROM <table> WHERE id = ?`; after execution, a zero
affected-row count (`result.meta.changes === 0`) yields 404
`Record not found`, otherwise success with the count. `changes` is the
collaborator's reported affected-row count. -/
def handleDelete (tableName : String) (id : String) (changes : Nat) :
    Except (Nat × String) (DbQuery × Nat) :=
  match sanitizeKeyword tableName with
  | Except.error e => Except.error (400, e)
  | Except.ok table =>
    if changes = 0 then Except.error (404, "Record not found")
    else Except.ok (⟨"DELETE FROM " ++ table ++ " WHERE id = ?", [JsVal.vStr id]⟩, changes)

/-! ## Raw query gateway — `src/index.ts` lines 125–163 (`app.post` on the `/query` route)

The guard chain runs in source order: query validity, multi-statement
check, dangerous-pattern denylist, params validity; only a request that
passes all four reaches `env.DB.prepare(query).bind(...).all()`,
modelled by the `execute` constructor. -/

/-- Outcome of the `/query` guard chain. Only `execute` reaches the
database collaborator; the others are the early 400/403 responses. -/
inductive QueryOutcome where
  | badQuery
  | multiStatement
  | dangerous
  | badParams
  | execute (q : DbQuery)
deriving DecidableEq, Repr

/-- Match a literal character list at the head of the input, returning
the rest of the input. -/
def matchLit : List Char → List Char → Option (List Char)
  | [], rest => some rest
  | _ :: _, [] => none
  | p :: ps, c :: cs => if p = c then matchLit ps cs else none

/-- Consume one-or-more whitespace characters (`\s+`). -/
def afterSpaces1 : List Char → Option (List Char)
  | [] => none
  | c :: cs => if isSpaceChar c then some (cs.dropWhile isSpaceChar) else none

/-- A word boundary (`\b`) holds after a word character here: the rest
of the input is empty or starts with a non-word character. -/
def endsBoundary : List Char → Bool
  | [] => true
  | c :: _ => !isIdentChar c

/-- Match `w\b` at the head of the input. -/
def wordAt (w : List Char) (l : List Char) : Bool :=
  match matchLit w l with
  | none => false
  | some rest => endsBoundary rest

/-- Match `w1\s+w2\b` at the head of the input. -/
def phraseAt (w1 w2 : List Char) (l : List Char) : Bool :=
  match matchLit w1 l with
  | none => false
  | some r1 =>
    match afterSpaces1 r1 with
    | none => false
    | some r2 => wordAt w2 r2

/-- Search for `\bw\b` anywhere in the input; `prevWord` records
whether the character before the current position is a word character
(false at the start of the string). -/
def wordSearch (w : List Char) (prevWord : Bool) : List Char → Bool
  | [] => false
  | c :: cs => (!prevWord && wordAt w (c :: cs)) || wordSearch w (isIdentChar c) cs

/-- Search for `\bw1\s+w2\b` anywhere in the input. -/
def phraseSearch (w1 w2 : List Char) (prevWord : Bool) : List Char → Bool
  | [] => false
  | c :: cs => (!prevWord && phraseAt w1 w2 (c :: cs)) || phraseSearch w1 w2 (isIdentChar c) cs

/-- The dangerous-operation denylist (`src/index.ts` lines 139–148): the
case-insensitive regexes `\bdrop\s+table\b`, `\bdrop\s+database\b`,
`\btruncate\b`, `\balter\s+table\b` tested against the query text;
case-insensitive matching is modelled by searching the lowercased text
for the lowercase patterns. -/
def dangerousTest (q : String) : Bool :=
  phraseSearch "drop".data "table".data false (lowerStr q).data ||
  phraseSearch "drop".data "database".data false (lowerStr q).data ||
  wordSearch "truncate".data false (lowerStr q).data ||
  phraseSearch "alter".data "table".data false (lowerStr q).data

/-- `String.prototype.split(';')` on the underlying character list:
the list of segments between semicolons (a string without the
separator yields one segment, matching JavaScript). -/
def splitSemi : List Char → List (List Char)
  | [] => [[]]
  | c :: cs =>
    if c = ';' then [] :: splitSemi cs
    else
      match splitSemi cs with
      | s :: ss => (c :: s) :: ss
      | [] => [[c]]

/-- The underlying-character form of `jsTrim`. -/
def trimChars (l : List Char) : List Char :=
  ((l.dropWhile isSpaceChar).reverse.dropWhile isSpaceChar).reverse

/-- The multi-statement check (`src/index.ts` lines 134–137): on
`query.trim().toLowerCase()`, the text contains a semicolon and
splitting on `;` leaves more than one segment that is non-blank after
trimming (`split(';').filter(s => s.trim()).length > 1`). -/
def multiStatementTest (q : String) : Bool :=
  (lowerStr (jsTrim q)).data.contains ';' &&
    ((splitSemi (lowerStr (jsTrim q)).data).filter (fun s => trimChars s ≠ [])).length > 1

/-- The `/query` route handler guard chain (`src/index.ts` lines
125–163). `query` is the body's `query` string (the empty string is
falsy, hence `badQuery`); `params` is the body's `params` property when
present. A present non-array `params` is rejected; on acceptance the
query text and the positional parameters are handed to the
collaborator. -/
def postQuery (query : String) (params : Option JsonData) : QueryOutcome :=
  if query = "" then QueryOutcome.badQuery
  else if multiStatementTest query then QueryOutcome.multiStatement
  else if dangerousTest query then QueryOutcome.dangerous
  else
    match params with
    | none => QueryOutcome.execute ⟨query, []⟩
    | some (JsonData.arr items) => QueryOutcome.execute ⟨query, items⟩
    | some _ => QueryOutcome.badParams

/-! ## Auth middleware — `src/index.ts` lines 99–117 -/

/-- Outcome of the authentication middleware: the two 401 branches
(missing header, mismatched token) and the pass-through. -/
inductive AuthResult where
  | missing
  | invalid
  | pass
deriving DecidableEq, Repr

/-- Is the first list a prefix of the second
(`String.prototype.startsWith` on the underlying characters)? -/
def charsPrefix : List Char → List Char → Bool
  | [], _ => true
  | _ :: _, [] => false
  | p :: ps, c :: cs => p = c && charsPrefix ps cs

/-- Strip the optional `Bearer ` scheme from the `Authorization` header
(`src/index.ts` lines 106–108): `authHeader.startsWith('Bearer ') ?
authHeader.substring(7) : authHeader`. -/
def authToken (h : String) : String :=
  if charsPrefix "Bearer ".data h.data then String.mk (h.data.drop 7) else h

/-- `authMiddleware` (`src/index.ts` lines 99–117): 401 when the header
is absent; otherwise compare
`token.length !== secret.length || token !== secret` and 401 on
mismatch. -/
def authMiddleware (secret : String) (authHeader : Option String) : AuthResult :=
  match authHeader with
  | none => AuthResult.missing
  | some h =>
    if (authToken h).length ≠ secret.length ∨ authToken h ≠ secret then
      AuthResult.invalid
    else AuthResult.pass

/-- The HTTP status produced by each auth outcome: both mismatch
branches respond 401. -/
def authStatus : AuthResult → Option Nat
  | AuthResult.missing => some 401
  | AuthResult.invalid => some 401
  | AuthResult.pass => none

/-- Cost model of the content comparison `token !== secret` as executed
by the engine: a left-to-right scan that counts one comparison per
character position and stops at the first mismatching position (or when
one side ends). A fixed-cost comparison would instead visit every
position regardless of content. -/
def eqScanCost : List Char → List Char → Nat
  | [], _ => 0
  | _ :: _, [] => 0
  | a :: as, b :: bs => if a = b then 1 + eqScanCost as bs else 1

/-! ## Rate limiter — `src/index.ts` lines 11–14 and 73–91 -/

/-- `RATE_LIMIT_WINDOW` (`src/index.ts` line 12): one minute in
milliseconds. -/
def RATE_LIMIT_WINDOW : Nat := 60000

/-- `MAX_REQUESTS` (`src/index.ts` line 13). -/
def MAX_REQUESTS : Nat := 100

/-- One entry of the `requestCounts` map. -/
structure RateEntry where
  count : Nat
  resetTime : Nat
deriving DecidableEq, Repr

/-- The `requestCounts` map, keyed by client identifier. -/
def RateMap : Type := String → Option RateEntry

/-- `Map.set`. -/
def mapSet (m : RateMap) (k : String) (e : RateEntry) : RateMap :=
  fun x => if x = k then some e else m x

/-- Whether the rate-limiting middleware lets the request proceed or
responds 429. -/
inductive RateOutcome where
  | limited
  | proceed
deriving DecidableEq, Repr

/-- The rate-limiting middleware step (`src/index.ts` lines 73–91): on
each request, create a fresh entry with count 1 when none exists or the
window has expired (`now > resetTime`); otherwise reject with 429 when
`count >= MAX_REQUESTS`, leaving the map unchanged; otherwise
increment. -/
def rateStep (m : RateMap) (clientIP : String) (now : Nat) : RateMap × RateOutcome :=
  match m clientIP with
  | some e =>
    if e.resetTime < now then
      (mapSet m clientIP ⟨1, now + RATE_LIMIT_WINDOW⟩, RateOutcome.proceed)
    else if MAX_REQUESTS ≤ e.count then
      (m, RateOutcome.limited)
    else
      (mapSet m clientIP ⟨e.count + 1, e.resetTime⟩, RateOutcome.proceed)
  | none => (mapSet m clientIP ⟨1, now + RATE_LIMIT_WINDOW⟩, RateOutcome.proceed)

/-- The client identifier (`src/index.ts` line 74):
`cf-connecting-ip || x-forwarded-for || 'unknown'` with JavaScript
truthiness (an absent or empty header falls through). -/
def clientIdOf (cfConnectingIp xForwardedFor : Option String) : String :=
  if strTruthy cfConnectingIp then cfConnectingIp.getD ""
  else if strTruthy xForwardedFor then xForwardedFor.getD ""
  else "unknown"

/-! ## Middleware pipeline — `src/index.ts` lines 73–123

The rate-limiting middleware is registered with `app.use('*', ...)`
before `authMiddleware` is attached to the `/rest/*` and `/query`
routes, so every request passes the rate limiter first and reaches the
auth check only when not limited. -/

/-- The result observed by the client after the rate-limiting and
authentication middlewares, before any route handler runs. -/
inductive PipeResult where
  | limited
  | unauthorized (missingHeader : Bool)
  | handled
deriving DecidableEq, Repr

/-- HTTP status of each middleware outcome: 429 for `limited`, 401 for
`unauthorized`, and none (the route handler responds) for `handled`. -/
def pipeStatus : PipeResult → Option Nat
  | PipeResult.limited => some 429
  | PipeResult.unauthorized _ => some 401
  | PipeResult.handled => none

/-- The middleware pipeline in registration order: rate limiter first,
then authentication (`src/index.ts` lines 73–123). -/
def pipeline (m : RateMap) (ip : String) (now : Nat) (secret : String)
    (authHeader : Option String) : RateMap × PipeResult :=
  match rateStep m ip now with
  | (m2, RateOutcome.limited) => (m2, PipeResult.limited)
  | (m2, RateOutcome.proceed) =>
    match authMiddleware secret authHeader with
    | AuthResult.missing => (m2, PipeResult.unauthorized true)
    | AuthResult.invalid => (m2, PipeResult.unauthorized false)
    | AuthResult.pass => (m2, PipeResult.handled)

/-! ## Claim theorems -/

/-- **C6.** `sanitize(raw)` fails with `InvalidIdentifier` if and only
if the input is empty, or the result of stripping every character
outside `[A-Za-z0-9_]` is empty, or that stripped result's first
character is a digit; in every other case it returns the stripped
string. (The non-string input case has no counterpart in the typed
embedding.) -/
theorem c6_sanitize_error_iff (s : String) :
    ((∃ e, sanitizeIdentifier s = Except.error e) ↔
      (s = "" ∨ stripIdent s = "" ∨ startsWithDigit (stripIdent s) = true)) ∧
    (¬(s = "" ∨ stripIdent s = "" ∨ startsWithDigit (stripIdent s) = true) →
      sanitizeIdentifier s = Except.ok (stripIdent s)) := by
  have hlen : (stripIdent s).length = 0 ↔ stripIdent s = "" := by
    constructor
    · intro h
      cases hs : stripIdent s with
      | mk data =>
        rw [hs] at h
        cases data with
        | nil => rfl
        | cons c cs => simp [String.length] at h
    · intro h
      rw [h]
      rfl
  unfold sanitizeIdentifier
  by_cases h1 : s = ""
  · simp [h1]
  · rw [if_neg h1]
    by_cases h2 : stripIdent s = ""
    · have : (decide ((stripIdent s).length = 0) || startsWithDigit (stripIdent s)) = true := by
        simp [hlen.mpr h2]
      rw [this]
      simp [h1, h2]
    · by_cases h3 : startsWithDigit (stripIdent s) = true
      · have : (decide ((stripIdent s).length = 0) || startsWithDigit (stripIdent s)) = true := by
          simp [h3]
        rw [this]
        simp [h1, h2, h3]
      · have : (decide ((stripIdent s).length = 0) || startsWithDigit (stripIdent s)) = false := by
          simp [h3, hlen, h2]
        rw [this]
        simp [h1, h2, h3]

/-- Witness for C6 at concrete inputs: `"users"` is not in the failure
set and sanitizes to itself. -/
theorem c6_sanitize_error_iff_witness :
    ¬("users" = "" ∨ stripIdent "users" = "" ∨ startsWithDigit (stripIdent "users") = true) ∧
    sanitizeIdentifier "users" = Except.ok (stripIdent "users") :=
  ⟨by decide, (c6_sanitize_error_iff "users").2 (by decide)⟩

/-- **C2 (counterexample).** The body query
`"DROP TABLE users; SELECT 1"` on `/query` is rejected by the
multi-statement guard (HTTP 400), which runs before the
dangerous-operation guard, so the response is *not* the
`DangerousOperation` 403 the claim states. It is still rejected without
reaching the database (only the `execute` outcome reaches it). -/
theorem c2_counterexample :
    postQuery "DROP TABLE users; SELECT 1" none = QueryOutcome.multiStatement ∧
    postQuery "DROP TABLE users; SELECT 1" none ≠ QueryOutcome.dangerous := by
  decide

/-- **C2 (amended).** A POST to `/query` whose body query lowercases to
`"drop table users; select 1"` (any letter case; such a string has no
surrounding whitespace, so it is its own trim) is rejected with the
multi-statement error (HTTP 400) without any call to the database
collaborator, the multi-statement guard running before the
dangerous-operation guard. -/
theorem c2_query_drop_rejected (s : String) (p : Option JsonData)
    (htrim : jsTrim s = s)
    (hlower : lowerStr s = "drop table users; select 1") :
    postQuery s p = QueryOutcome.multiStatement := by
  have hne : s ≠ "" := by
    intro h
    rw [h] at hlower
    exact absurd hlower (by decide)
  have hm : multiStatementTest s = true := by
    unfold multiStatementTest
    rw [htrim, hlower]
    decide
  unfold postQuery
  simp [hne, hm]

/-- Witness for C2 at the spec's concrete input, in its original
upper case. -/
theorem c2_query_drop_rejected_witness :
    jsTrim "DROP TABLE users; SELECT 1" = "DROP TABLE users; SELECT 1" ∧
    lowerStr "DROP TABLE users; SELECT 1" = "drop table users; select 1" ∧
    postQuery "DROP TABLE users; SELECT 1" (some (JsonData.arr [])) =
      QueryOutcome.multiStatement :=
  ⟨by decide, by decide,
    c2_query_drop_rejected "DROP TABLE users; SELECT 1" (some (JsonData.arr []))
      (by decide) (by decide)⟩

/-- **C3 (counterexample).** The bound parameters of `handlePost` are
`columns.map(col => data[col])`: the value is looked up under the
*sanitized* column name. For the body `{"a-b": "x"}` the key sanitizes
to `ab`, which is not a property of the body, so the bound parameter is
`undefined` — not the body's value `"x"` as the claim states. -/
theorem c3_counterexample :
    handlePost "users" (JsonData.obj [("a-b", JsVal.vStr "x")]) =
      Except.ok (⟨"INSERT INTO `users` (ab) VALUES (?)", [JsVal.vUndef]⟩, 201) ∧
    JsVal.vUndef ≠ JsVal.vStr "x" := by
  decide

theorem mapSanitize_fixed (ks : List String) (h : ∀ k ∈ ks, SanitizedIdent k) :
    mapSanitize ks = Except.ok ks := by
  induction ks with
  | nil => rfl
  | cons k rest ih =>
    unfold mapSanitize
    rw [show sanitizeIdentifier k = Except.ok k from h k (by simp)]
    rw [ih (fun x hx => h x (by simp [hx]))]

theorem objLookup_head (k : String) (v : JsVal) (fields : List (String × JsVal)) :
    objLookup ((k, v) :: fields) k = v := by
  simp [objLookup, List.find?]

theorem objLookup_cons_ne (k : String) (v : JsVal) (fields : List (String × JsVal))
    (x : String) (h : x ≠ k) :
    objLookup ((k, v) :: fields) x = objLookup fields x := by
  simp only [objLookup, List.find?]
  rw [show (decide (k = x)) = false from decide_eq_false (fun hh : k = x => h hh.symm)]

/-- When the keys of a JavaScript object are distinct, looking every
key back up returns the values in key order. -/
theorem objLookup_values (fields : List (String × JsVal))
    (hnodup : (fields.map Prod.fst).Nodup) :
    fields.map (fun p => objLookup fields p.1) = fields.map Prod.snd := by
  induction fields with
  | nil => rfl
  | cons hd tl ih =>
    obtain ⟨k, v⟩ := hd
    have hk : k ∉ tl.map Prod.fst := by
      simpa using (List.nodup_cons.mp hnodup).1
    have htl : (tl.map Prod.fst).Nodup := (List.nodup_cons.mp hnodup).2
    simp only [List.map]
    rw [objLookup_head]
    congr 1
    have hcong : ∀ p ∈ tl, objLookup ((k, v) :: tl) p.1 = objLookup tl p.1 := by
      intro p hp
      exact objLookup_cons_ne k v tl p.1
        (fun he => hk (he ▸ List.mem_map_of_mem Prod.fst hp))
    calc tl.map (fun p => objLookup ((k, v) :: tl) p.1)
        = tl.map (fun p => objLookup tl p.1) := List.map_congr_left hcong
      _ = tl.map Prod.snd := ih htl

/-- **C3 (amended).** For every POST create request with a valid body
whose keys are distinct and already sanitizer-clean (each key is a
fixed point of the sanitizer — in particular any body built from
`[A-Za-z_]`-named fields such as the spec's example), the emitted SQL
is `INSERT INTO <table> (<cols>) VALUES (<placeholders>)` and the bound
parameter list contains the body's values in key order, with HTTP 201.
In general the bound values are looked up under the *sanitized* key. -/
theorem c3_post_insert_shape (tableName : String) (fields : List (String × JsVal))
    (tb : String)
    (htb : sanitizeKeyword tableName = Except.ok tb)
    (hne : fields ≠ [])
    (hnodup : (fields.map Prod.fst).Nodup)
    (hkeys : ∀ k ∈ fields.map Prod.fst, SanitizedIdent k) :
    handlePost tableName (JsonData.obj fields) =
      Except.ok
        (⟨"INSERT INTO " ++ tb ++ " (" ++
            String.intercalate ", " (fields.map Prod.fst) ++ ") VALUES (" ++
            String.intercalate ", " (fields.map (fun _ => "?")) ++ ")",
          fields.map Prod.snd⟩, 201) := by
  unfold handlePost
  rw [htb]
  have hlen : ¬ fields.length = 0 := by
    simpa [List.length_eq_zero] using hne
  simp only []
  rw [if_neg hlen]
  rw [mapSanitize_fixed _ hkeys]
  simp only []
  have hq : ((fields.map Prod.fst).map (fun _ => "?") : List String) =
      fields.map (fun _ => "?") := by
    rw [List.map_map]
    exact List.map_congr_left (fun a _ => rfl)
  have hp : (fields.map Prod.fst).map (fun col => objLookup fields col) =
      fields.map Prod.snd := by
    rw [List.map_map]
    exact objLookup_values fields hnodup
  rw [hq, hp]

/-- Witness for C3 (amended) at the spec's example body
`{"name":"John","age":30}` on `/rest/users`. -/
theorem c3_post_insert_shape_witness :
    handlePost "users"
        (JsonData.obj [("name", JsVal.vStr "John"), ("age", JsVal.vNum 30)]) =
      Except.ok
        (⟨"INSERT INTO " ++ "`users`" ++ " (" ++
            String.intercalate ", " ["name", "age"] ++ ") VALUES (" ++
            String.intercalate ", " ["?", "?"] ++ ")",
          [JsVal.vStr "John", JsVal.vNum 30]⟩, 201) :=
  c3_post_insert_shape "users" [("name", JsVal.vStr "John"), ("age", JsVal.vNum 30)]
    "`users`" (by decide) (by decide) (by decide) (by decide)

/-- **C4 (code bug).** The auth gate's comparison
`token.length !== secret.length || token !== secret` does compare
lengths first and every mismatch yields the same 401, but the content
check is the engine's ordinary string equality — a left-to-right scan
that stops at the first mismatching character — not a fixed-cost
check. Under the scan-cost model `eqScanCost`, two equal-length wrong
tokens for the secret `"ab"` are both rejected with 401 yet incur
different comparison costs, so the comparison is not constant-time in
secret content, contradicting the claim and the code's own
`Constant-time comparison` comment. -/
theorem c4_auth_comparison_not_fixed_cost :
    authMiddleware "ab" (some "xb") = AuthResult.invalid ∧
    authMiddleware "ab" (some "ax") = AuthResult.invalid ∧
    authStatus (authMiddleware "ab" (some "xb")) = some 401 ∧
    authStatus (authMiddleware "ab" (some "ax")) = some 401 ∧
    (authToken "xb").length = "ab".length ∧
    (authToken "ax").length = "ab".length ∧
    eqScanCost (authToken "xb").data "ab".data ≠
      eqScanCost (authToken "ax").data "ab".data := by
  decide

/-- **C5.** The rate limiter's step function: a request whose entry has
`count >= 100` inside an unexpired window is rejected (429) and the map
is unchanged; a request arriving after `resetTime` has passed proceeds
and replaces the entry with count 1 and a fresh `resetTime`. With the
window at 60000 ms and the limit at 100, this is exactly: the 101st
request within one window is rejected, and the first request after the
window elapses resets the counter. -/
theorem c5_rate_limiter_step (m : RateMap) (ip : String) (now : Nat) (e : RateEntry)
    (hm : m ip = some e) :
    (MAX_REQUESTS ≤ e.count → ¬ e.resetTime < now →
      rateStep m ip now = (m, RateOutcome.limited)) ∧
    (e.resetTime < now →
      rateStep m ip now =
        (mapSet m ip ⟨1, now + RATE_LIMIT_WINDOW⟩, RateOutcome.proceed)) := by
  unfold rateStep
  rw [hm]
  simp only []
  constructor
  · intro hcount hwin
    rw [if_neg hwin, if_pos hcount]
  · intro hwin
    rw [if_pos hwin]

/-- Witness for C5: a client at the limit (count 100, window until
60000) is rejected at time 50000 with the map unchanged, and at time
70000 (window elapsed) proceeds with a reset entry. -/
theorem c5_rate_limiter_step_witness :
    rateStep (fun x => if x = "1.2.3.4" then some ⟨100, 60000⟩ else none) "1.2.3.4" 50000 =
      ((fun x => if x = "1.2.3.4" then some ⟨100, 60000⟩ else none), RateOutcome.limited) ∧
    rateStep (fun x => if x = "1.2.3.4" then some ⟨100, 60000⟩ else none) "1.2.3.4" 70000 =
      (mapSet (fun x => if x = "1.2.3.4" then some ⟨100, 60000⟩ else none) "1.2.3.4"
          ⟨1, 70000 + RATE_LIMIT_WINDOW⟩,
        RateOutcome.proceed) :=
  ⟨(c5_rate_limiter_step (fun x => if x = "1.2.3.4" then some ⟨100, 60000⟩ else none)
      "1.2.3.4" 50000 ⟨100, 60000⟩ (by decide)).1 (by decide) (by decide),
   (c5_rate_limiter_step (fun x => if x = "1.2.3.4" then some ⟨100, 60000⟩ else none)
      "1.2.3.4" 70000 ⟨100, 60000⟩ (by decide)).2 (by decide)⟩

/-- **C7.** `GET /rest/users?age=25&sort_by=name&order=desc` produces
exactly `SELECT * FROM `users` WHERE age = ? ORDER BY name DESC` bound
to `["25"]`; reserved keys contribute no filter condition; an `order`
value whose uppercasing is `DESC` selects descending sort. -/
theorem c7_get_filter_sort :
    handleGet "users" none [("age", "25"), ("sort_by", "name"), ("order", "desc")] =
      Except.ok ⟨"SELECT * FROM `users` WHERE age = ? ORDER BY name DESC",
        [JsVal.vStr "25"]⟩ ∧
    (∀ (k v : String) (sp : List (String × String)), k ∈ reservedKeys →
      collectConditions ((k, v) :: sp) = collectConditions sp) ∧
    (∀ (sp : List (String × String)) (o : String), lookupParam sp "order" = some o →
      upperStr o = "DESC" → orderDir sp = "DESC") := by
  refine ⟨by decide, ?_, ?_⟩
  · intro k v sp hk
    have hc : reservedKeys.contains k = true := List.elem_eq_true_of_mem hk
    conv_lhs => unfold collectConditions
    rw [hc]
    simp
  · intro sp o h1 h2
    unfold orderDir
    rw [h1]
    simp [h2]

/-- Witness for C7: the reserved key `limit` adds no condition, and
`order=desc` selects `DESC`. -/
theorem c7_get_filter_sort_witness :
    collectConditions [("limit", "10")] = collectConditions [] ∧
    orderDir [("order", "desc")] = "DESC" :=
  ⟨c7_get_filter_sort.2.1 "limit" "10" [] (by decide),
   c7_get_filter_sort.2.2 [("order", "desc")] "desc" (by decide) (by decide)⟩

/-- **C8.** A PUT/PATCH body that is a non-empty object containing an
`id` key fails with `Cannot update ID field` (HTTP 400) regardless of
the other fields, for every valid table name; the result is an error,
so no `UPDATE` statement (an `Except.ok` carrying a `DbQuery`) is
handed to the collaborator. -/
theorem c8_update_id_forbidden (tableName id : String)
    (fields : List (String × JsVal)) (tb : String)
    (htb : sanitizeKeyword tableName = Except.ok tb)
    (hne : fields ≠ [])
    (hid : "id" ∈ fields.map Prod.fst) :
    handleUpdate tableName id (JsonData.obj fields) =
      Except.error (400, "Cannot update ID field") := by
  unfold handleUpdate
  rw [htb]
  simp only []
  have hlen : ¬ fields.length = 0 := by
    simpa [List.length_eq_zero] using hne
  rw [if_neg hlen]
  have hc : (fields.map Prod.fst).contains "id" = true := List.elem_eq_true_of_mem hid
  rw [hc]
  simp

/-- Witness for C8 at the spec's example: `PATCH /rest/users/5` with
body `{"id": 9}`. -/
theorem c8_update_id_forbidden_witness :
    handleUpdate "users" "5" (JsonData.obj [("id", JsVal.vNum 9)]) =
      Except.error (400, "Cannot update ID field") :=
  c8_update_id_forbidden "users" "5" [("id", JsVal.vNum 9)] "`users`"
    (by decide) (by decide) (by decide)

/-- **C9.** For every DELETE with a valid table name and a
path-embedded id, the handler fails with `Record not found` (HTTP 404)
exactly when the collaborator reports zero affected rows; otherwise it
succeeds with the emitted `DELETE FROM <table> WHERE id = ?` and the
affected-row count. -/
theorem c9_delete_notfound (tableName id : String) (changes : Nat) (tb : String)
    (htb : sanitizeKeyword tableName = Except.ok tb) :
    ((handleDelete tableName id changes = Except.error (404, "Record not found")) ↔
      changes = 0) ∧
    (changes ≠ 0 → handleDelete tableName id changes =
      Except.ok (⟨"DELETE FROM " ++ tb ++ " WHERE id = ?", [JsVal.vStr id]⟩, changes)) := by
  unfold handleDelete
  rw [htb]
  simp only []
  by_cases h : changes = 0
  · simp [h]
  · simp [h]

/-- Witness for C9: deleting id 7 with zero affected rows is 404;
with two affected rows it succeeds with the count. -/
theorem c9_delete_notfound_witness :
    (handleDelete "users" "7" 0 = Except.error (404, "Record not found")) ∧
    handleDelete "users" "7" 2 =
      Except.ok (⟨"DELETE FROM " ++ "`users`" ++ " WHERE id = ?", [JsVal.vStr "7"]⟩, 2) :=
  ⟨(c9_delete_notfound "users" "7" 0 "`users`" (by decide)).1.mpr rfl,
   (c9_delete_notfound "users" "7" 2 "`users`" (by decide)).2 (by decide)⟩

/-- **C10.** Rate limiting runs before authentication: inside an
unexpired window, a client at the limit receives 429 for any
`Authorization` header (missing, wrong or right), and a client below
the limit has its counter incremented even when the request then fails
authentication with 401. -/
theorem c10_rate_before_auth (m : RateMap) (ip : String) (now : Nat) (secret : String)
    (h : Option String) (e : RateEntry)
    (hm : m ip = some e) (hwin : ¬ e.resetTime < now) :
    (MAX_REQUESTS ≤ e.count →
      pipeline m ip now secret h = (m, PipeResult.limited) ∧
      pipeStatus (pipeline m ip now secret h).2 = some 429) ∧
    (e.count < MAX_REQUESTS →
      (pipeline m ip now secret h).1 ip = some ⟨e.count + 1, e.resetTime⟩ ∧
      (authMiddleware secret h ≠ AuthResult.pass →
        pipeStatus (pipeline m ip now secret h).2 = some 401)) := by
  constructor
  · intro hcount
    have hrs : rateStep m ip now = (m, RateOutcome.limited) := by
      unfold rateStep
      rw [hm]
      simp only []
      rw [if_neg hwin, if_pos hcount]
    unfold pipeline
    rw [hrs]
    exact ⟨rfl, rfl⟩
  · intro hcount
    have hlt : ¬ MAX_REQUESTS ≤ e.count := by omega
    have hrs : rateStep m ip now =
        (mapSet m ip ⟨e.count + 1, e.resetTime⟩, RateOutcome.proceed) := by
      unfold rateStep
      rw [hm]
      simp only []
      rw [if_neg hwin, if_neg hlt]
    constructor
    · unfold pipeline
      rw [hrs]
      cases ha : authMiddleware secret h <;> simp only [] <;> simp [mapSet]
    · intro hna
      unfold pipeline
      rw [hrs]
      cases ha : authMiddleware secret h
      · rfl
      · rfl
      · exact absurd ha hna

/-- Witness for C10: a client at the limit receives 429 with no header;
a client below the limit is counted up and receives 401 on a wrong
token. -/
theorem c10_rate_before_auth_witness :
    pipeline (fun x => if x = "a" then some ⟨100, 60000⟩ else none) "a" 1000 "s" none =
      ((fun x => if x = "a" then some ⟨100, 60000⟩ else none), PipeResult.limited) ∧
    (pipeline (fun x => if x = "a" then some ⟨3, 60000⟩ else none) "a" 1000 "s"
        (some "wrong")).1 "a" = some ⟨4, 60000⟩ ∧
    pipeStatus (pipeline (fun x => if x = "a" then some ⟨3, 60000⟩ else none) "a" 1000 "s"
        (some "wrong")).2 = some 401 := by
  refine ⟨((c10_rate_before_auth (fun x => if x = "a" then some ⟨100, 60000⟩ else none)
      "a" 1000 "s" none ⟨100, 60000⟩ (by decide) (by decide)).1 (by decide)).1, ?_, ?_⟩
  · exact ((c10_rate_before_auth (fun x => if x = "a" then some ⟨3, 60000⟩ else none)
      "a" 1000 "s" (some "wrong") ⟨3, 60000⟩ (by decide) (by decide)).2 (by decide)).1
  · exact ((c10_rate_before_auth (fun x => if x = "a" then some ⟨3, 60000⟩ else none)
      "a" 1000 "s" (some "wrong") ⟨3, 60000⟩ (by decide) (by decide)).2 (by decide)).2
      (by decide)

/-! ### Emitted-SQL shape lemmas for the sanitization invariant -/

/-- Every condition collected from the query string is a sanitizer
fixed point followed by ` = ?`, and every collected parameter is the
corresponding request value. -/
theorem collectConditions_shape :
    ∀ (sp : List (String × String)) (cs : List String) (ps : List JsVal),
      collectConditions sp = Except.ok (cs, ps) →
      (∀ c ∈ cs, ∃ col, SanitizedIdent col ∧ c = col ++ " = ?") ∧
      (∀ v ∈ ps, ∃ s, v = JsVal.vStr s) := by
  intro sp
  induction sp with
  | nil =>
    intro cs ps h
    simp [collectConditions] at h
    obtain ⟨h1, h2⟩ := h
    subst h1
    subst h2
    exact ⟨by simp, by simp⟩
  | cons kv rest ih =>
    obtain ⟨k, v⟩ := kv
    intro cs ps h
    unfold collectConditions at h
    split at h
    · exact ih cs ps h
    · split at h
      · exact absurd h (by simp)
      · rename_i sk hsk
        split at h
        · exact absurd h (by simp)
        · rename_i cs1 ps1 hrest
          have hih := ih cs1 ps1 hrest
          have hinj : (sk ++ " = ?") :: cs1 = cs ∧ (JsVal.vStr v :: ps1 : List JsVal) = ps := by
            simpa [Prod.ext_iff] using h
          obtain ⟨hcs, hps⟩ := hinj
          subst hcs
          subst hps
          constructor
          · intro c hc
            rcases List.mem_cons.mp hc with hceq | hcm
            · exact ⟨sk, sanitize_output_fixed hsk, hceq⟩
            · exact hih.1 c hcm
          · intro w hw
            rcases List.mem_cons.mp hw with hweq | hwm
            · exact ⟨v, hweq⟩
            · exact hih.2 w hwm

/-- The sort direction is always `DESC` or `ASC`. -/
theorem orderDir_cases (sp : List (String × String)) :
    orderDir sp = "DESC" ∨ orderDir sp = "ASC" := by
  unfold orderDir
  split
  · exact Or.inl rfl
  · exact Or.inr rfl

/-- The sort segment is empty or `ORDER BY` over a sanitizer fixed
point with direction `ASC` or `DESC`. -/
theorem sortSegment_shape (sp : List (String × String)) (s : String)
    (h : sortSegment sp = Except.ok s) :
    s = "" ∨ ∃ sc dir, SanitizedIdent sc ∧ (dir = "ASC" ∨ dir = "DESC") ∧
      s = " ORDER BY " ++ sc ++ " " ++ dir := by
  unfold sortSegment at h
  split at h
  · split at h
    · exact absurd h (by simp)
    · rename_i sc hsc
      right
      refine ⟨sc, orderDir sp, sanitize_output_fixed hsc, ?_, ?_⟩
      · rcases orderDir_cases sp with hd | hd
        · exact Or.inr hd
        · exact Or.inl hd
      · simpa [eq_comm] using h
  · left
    simpa [eq_comm] using h

/-- The pagination segment is empty, `LIMIT ?`, or `LIMIT ? OFFSET ?`. -/
theorem pageSegment_shape (sp : List (String × String)) :
    (pageSegment sp).1 = "" ∨ (pageSegment sp).1 = " LIMIT ?" ∨
      (pageSegment sp).1 = " LIMIT ? OFFSET ?" := by
  unfold pageSegment
  split
  · split
    · exact Or.inr (Or.inr rfl)
    · exact Or.inr (Or.inl rfl)
  · exact Or.inl rfl

/-- Every column produced by `mapSanitize` is a sanitizer fixed point. -/
theorem mapSanitize_shape :
    ∀ (ks cols : List String), mapSanitize ks = Except.ok cols →
      ∀ c ∈ cols, SanitizedIdent c := by
  intro ks
  induction ks with
  | nil =>
    intro cols h
    simp [mapSanitize] at h
    subst h
    simp
  | cons k rest ih =>
    intro cols h
    unfold mapSanitize at h
    split at h
    · exact absurd h (by simp)
    · rename_i sk hsk
      split at h
      · exact absurd h (by simp)
      · rename_i sks hrest
        have hinj : sk :: sks = cols := by simpa using h
        subst hinj
        intro c hc
        rcases List.mem_cons.mp hc with hceq | hcm
        · rw [hceq]
          exact sanitize_output_fixed hsk
        · exact ih sks hrest c hcm

/-- **C1.** Sanitization invariant of the CRUD query builder: for every
request on which a handler (GET, POST, PUT/PATCH, DELETE) emits a SQL
statement, the statement decomposes so that every identifier
interpolated into the query text — the backtick-wrapped table name,
every filter/insert/update column, and the sort key — is a fixed point
of the identifier sanitizer (equivalently, a sanitizer output), while
the bound parameter list holds only request values (the path id, the
filter/body values, and parsed pagination numbers). There is no success
path that places an unsanitized identifier into the query string. -/
theorem c1_identifiers_sanitized :
    (∀ (t : String) (id : Option String) (sp : List (String × String)) (q : DbQuery),
      handleGet t id sp = Except.ok q →
      ∃ (tbl : String) (conds : List String) (vals pageVals : List JsVal)
        (sortPart pagePart : String),
        SanitizedIdent tbl ∧
        (∀ c ∈ conds, ∃ col, SanitizedIdent col ∧ c = col ++ " = ?") ∧
        (∀ v ∈ vals, ∃ s, v = JsVal.vStr s) ∧
        (sortPart = "" ∨ ∃ sc dir, SanitizedIdent sc ∧ (dir = "ASC" ∨ dir = "DESC") ∧
          sortPart = " ORDER BY " ++ sc ++ " " ++ dir) ∧
        (pagePart = "" ∨ pagePart = " LIMIT ?" ∨ pagePart = " LIMIT ? OFFSET ?") ∧
        q.sql = "SELECT * FROM " ++ ("`" ++ tbl ++ "`") ++
          whereClause (idConds id ++ conds) ++ sortPart ++ pagePart ∧
        q.params = (idParams id ++ vals) ++ pageVals) ∧
    (∀ (t : String) (d : JsonData) (q : DbQuery) (st : Nat),
      handlePost t d = Except.ok (q, st) →
      ∃ (tbl : String) (cols : List String),
        SanitizedIdent tbl ∧ (∀ c ∈ cols, SanitizedIdent c) ∧
        q.sql = "INSERT INTO " ++ ("`" ++ tbl ++ "`") ++ " (" ++
          String.intercalate ", " cols ++ ") VALUES (" ++
          String.intercalate ", " (cols.map (fun _ => "?")) ++ ")") ∧
    (∀ (t id : String) (d : JsonData) (q : DbQuery),
      handleUpdate t id d = Except.ok q →
      ∃ (tbl : String) (cols : List String) (vals : List JsVal),
        SanitizedIdent tbl ∧ (∀ c ∈ cols, SanitizedIdent c) ∧
        q.sql = "UPDATE " ++ ("`" ++ tbl ++ "`") ++ " SET " ++
          String.intercalate ", " (cols.map (fun col => col ++ " = ?")) ++
          " WHERE id = ?" ∧
        q.params = vals ++ [JsVal.vStr id]) ∧
    (∀ (t id : String) (changes : Nat) (q : DbQuery) (ch : Nat),
      handleDelete t id changes = Except.ok (q, ch) →
      ∃ tbl : String, SanitizedIdent tbl ∧
        q.sql = "DELETE FROM " ++ ("`" ++ tbl ++ "`") ++ " WHERE id = ?" ∧
        q.params = [JsVal.vStr id]) := by
  refine ⟨?_, ?_, ?_, ?_⟩
  · -- GET
    intro t id sp q h
    unfold handleGet at h
    split at h
    · exact absurd h (by simp)
    · rename_i table htb
      split at h
      · exact absurd h (by simp)
      · rename_i cs ps hcc
        split at h
        · exact absurd h (by simp)
        · rename_i sortPart hsort
          obtain ⟨tbl, htblS, htbleq⟩ := sanitizeKeyword_shape htb
          obtain ⟨hconds, hvals⟩ := collectConditions_shape sp cs ps hcc
          have hq : DbQuery.mk
              ("SELECT * FROM " ++ table ++ whereClause (idConds id ++ cs) ++
                sortPart ++ (pageSegment sp).1)
              ((idParams id ++ ps) ++ (pageSegment sp).2) = q := by
            simpa using h
          subst hq
          subst htbleq
          exact ⟨tbl, cs, ps, (pageSegment sp).2, sortPart, (pageSegment sp).1,
            htblS, hconds, hvals, sortSegment_shape sp sortPart hsort,
            pageSegment_shape sp, rfl, rfl⟩
  · -- POST
    intro t d q st h
    unfold handlePost at h
    split at h
    · exact absurd h (by simp)
    · rename_i table htb
      split at h
      · rename_i fields
        split at h
        · exact absurd h (by simp)
        · split at h
          · exact absurd h (by simp)
          · rename_i cols hcols
            obtain ⟨tbl, htblS, htbleq⟩ := sanitizeKeyword_shape htb
            have hq : DbQuery.mk
                ("INSERT INTO " ++ table ++ " (" ++ String.intercalate ", " cols ++
                  ") VALUES (" ++ String.intercalate ", " (cols.map (fun _ => "?")) ++ ")")
                (cols.map (fun col => objLookup fields col)) = q ∧ (201 : Nat) = st := by
              simpa [Prod.ext_iff] using h
            obtain ⟨hq1, _⟩ := hq
            subst hq1
            subst htbleq
            exact ⟨tbl, cols, htblS, mapSanitize_shape _ _ hcols, rfl⟩
      · exact absurd h (by simp)
  · -- UPDATE
    intro t id d q h
    unfold handleUpdate at h
    split at h
    · exact absurd h (by simp)
    · rename_i table htb
      split at h
      · rename_i fields
        split at h
        · exact absurd h (by simp)
        · split at h
          · exact absurd h (by simp)
          · split at h
            · exact absurd h (by simp)
            · rename_i cols hcols
              obtain ⟨tbl, htblS, htbleq⟩ := sanitizeKeyword_shape htb
              have hq : DbQuery.mk
                  ("UPDATE " ++ table ++ " SET " ++
                    String.intercalate ", " (cols.map (fun col => col ++ " = ?")) ++
                    " WHERE id = ?")
                  (fields.map Prod.snd ++ [JsVal.vStr id]) = q := by
                simpa using h
              subst hq
              subst htbleq
              exact ⟨tbl, cols, fields.map Prod.snd, htblS,
                mapSanitize_shape _ _ hcols, rfl, rfl⟩
      · exact absurd h (by simp)
  · -- DELETE
    intro t id changes q ch h
    unfold handleDelete at h
    split at h
    · exact absurd h (by simp)
    · rename_i table htb
      split at h
      · exact absurd h (by simp)
      · obtain ⟨tbl, htblS, htbleq⟩ := sanitizeKeyword_shape htb
        have hq : DbQuery.mk ("DELETE FROM " ++ table ++ " WHERE id = ?")
            [JsVal.vStr id] = q ∧ changes = ch := by
          simpa [Prod.ext_iff] using h
        obtain ⟨hq1, _⟩ := hq
        subst hq1
        subst htbleq
        exact ⟨tbl, htblS, rfl, rfl⟩

/-- Witness for C1, instantiating the GET clause at
`GET /rest/people/3?city=austin`. -/
theorem c1_identifiers_sanitized_witness :
    ∃ (tbl : String) (conds : List String) (vals pageVals : List JsVal)
      (sortPart pagePart : String),
      SanitizedIdent tbl ∧
      (∀ c ∈ conds, ∃ col, SanitizedIdent col ∧ c = col ++ " = ?") ∧
      (∀ v ∈ vals, ∃ s, v = JsVal.vStr s) ∧
      (sortPart = "" ∨ ∃ sc dir, SanitizedIdent sc ∧ (dir = "ASC" ∨ dir = "DESC") ∧
        sortPart = " ORDER BY " ++ sc ++ " " ++ dir) ∧
      (pagePart = "" ∨ pagePart = " LIMIT ?" ∨ pagePart = " LIMIT ? OFFSET ?") ∧
      (DbQuery.mk "SELECT * FROM `people` WHERE id = ? AND city = ?"
        [JsVal.vStr "3", JsVal.vStr "austin"]).sql =
        "SELECT * FROM " ++ ("`" ++ tbl ++ "`") ++
          whereClause (idConds (some "3") ++ conds) ++ sortPart ++ pagePart ∧
      (DbQuery.mk "SELECT * FROM `people` WHERE id = ? AND city = ?"
        [JsVal.vStr "3", JsVal.vStr "austin"]).params =
        (idParams (some "3") ++ vals) ++ pageVals :=
  c1_identifiers_sanitized.1 "people" (some "3") [("city", "austin")]
    (DbQuery.mk "SELECT * FROM `people` WHERE id = ? AND city = ?"
      [JsVal.vStr "3", JsVal.vStr "austin"]) (by decide)
